import Mathlib

/-!
Verification of the rule-based insurance decision pipeline: a shallow
embedding of the scoring/classification engines (fraud scoring, risk
scoring, document analysis, sentiment/intent classification) and of the
claim-decision orchestration, together with theorems settling the
specified behavioural properties.

Strings are modelled as lists of characters; Python floats are modelled
as rationals; Python dates are modelled as integer day ordinals (days
since 1970-01-01, so that weekday d = (d + 3) % 7 with Monday = 0); the
current wall-clock date is passed explicitly where the code reads it.
-/

/-! ## Basic string primitives (Python semantics) -/

/-- Python whitespace (`\s` over ASCII): space, tab, newline, carriage
return, vertical tab, form feed. -/
def pyIsSpace (c : Char) : Bool :=
  c = ' ' || c = '\t' || c = '\n' || c = '\r' || c = Char.ofNat 11 || c = Char.ofNat 12

/-- Python word character (`\w` over ASCII): letters, digits, underscore. -/
def pyIsWordChar (c : Char) : Bool :=
  (('a' ≤ c && c ≤ 'z') || ('A' ≤ c && c ≤ 'Z') || ('0' ≤ c && c ≤ '9') || c = '_')

/-- ASCII lower-casing of a character list (Python `str.lower`). -/
def pyLower (l : List Char) : List Char :=
  l.map Char.toLower

/-- Does `hay` start with `needle`? -/
def startsWithL : List Char → List Char → Bool
  | [], _ => true
  | _ :: _, [] => false
  | a :: as, b :: bs => a = b && startsWithL as bs

/-- Python substring containment `needle in hay` (empty needle is contained). -/
def containsL (needle : List Char) : List Char → Bool
  | [] => startsWithL needle []
  | c :: cs => startsWithL needle (c :: cs) || containsL needle cs

/-- Python `str.strip()`: drop leading and trailing whitespace. -/
def stripL (l : List Char) : List Char :=
  ((l.dropWhile pyIsSpace).reverse.dropWhile pyIsSpace).reverse

/-- Maximal runs of characters satisfying `keep`, in order, separators
dropped.  With `keep = pyIsWordChar` this is `re.findall(r'\b\w+\b', ·)`;
with `keep = !pyIsSpace` it is Python `str.split()`. -/
def runsBy (keep : Char → Bool) (l : List Char) : List (List Char) :=
  (l.foldr
    (fun c acc =>
      if keep c then
        match acc with
        | [] => [[c]]
        | w :: ws => (c :: w) :: ws
      else [] :: acc)
    []).filter (fun w => !w.isEmpty)

/-- Split on delimiter characters, keeping empty segments (Python
`str.split(d)` / `re.split` over a character class). -/
def splitOnPred (isDelim : Char → Bool) (l : List Char) : List (List Char) :=
  l.foldr
    (fun c acc =>
      if isDelim c then [] :: acc
      else
        match acc with
        | [] => [[c]]
        | w :: ws => (c :: w) :: ws)
    [[]]

/-- Python `len(s.split())`: number of whitespace-separated words. -/
def pyWordCount (l : List Char) : Nat :=
  (runsBy (fun c => !pyIsSpace c) l).length

/-- Day ordinal (days since 1970-01-01) of a proleptic Gregorian civil
date, for concrete date inputs. -/
def daysFromCivil (y m d : Int) : Int :=
  let y' := if m ≤ 2 then y - 1 else y
  let era := (if 0 ≤ y' then y' else y' - 399) / 400
  let yoe := y' - era * 400
  let mp := (m + 9) % 12
  let doy := (153 * mp + 2) / 5 + d - 1
  let doe := yoe * 365 + yoe / 4 - yoe / 100 + doy
  era * 146097 + doe - 719468

/-- Python `datetime.weekday()` on a day ordinal: Monday = 0, Sunday = 6
  (1970-01-01 was a Thursday). -/
def pyWeekday (d : Int) : Int :=
  (d + 3) % 7

/-! ## Fraud Scoring Engine (`FraudDetectorTool`) -/

/-- Claim data assembled for fraud detection: `description`,
`report_date` (parsed date, `none` when unparsable), `items`,
`police_report`.  The `image_analysis` text is carried along by the
orchestrator but never read by the fraud rules. -/
structure ClaimData where
  description : List Char
  report_date : Option Int
  items : List (List Char)
  police_report : Bool
deriving Repr, DecidableEq

/-- Policy snapshot fields read by fraud detection and claim-amount
computation. -/
structure PolicyData where
  start_date : Option Int
  coverage_amount : ℚ
  deductible : ℚ
deriving Repr, DecidableEq

/-- Customer claim history fields read by fraud detection. -/
structure CustomerHistory where
  recent_claims : Int
deriving Repr, DecidableEq

/-- Result of `detect_fraud`. -/
structure FraudResult where
  fraud_score : ℚ
  risk_category : List Char
  indicators_found : List (List Char)
  recommended_action : List Char
deriving Repr, DecidableEq

/-- Weight table `self.fraud_indicators["timing"]["recent_policy"]`. -/
def w_recent_policy : ℚ := 7/10

/-- Weight table `self.fraud_indicators["timing"]["weekend_claim"]`. -/
def w_weekend_claim : ℚ := 3/10

/-- Weight table `self.fraud_indicators["content"]["vague_description"]`. -/
def w_vague_description : ℚ := 6/10

/-- Weight table `self.fraud_indicators["content"]["excessive_items"]`. -/
def w_excessive_items : ℚ := 5/10

/-- Weight table `self.fraud_indicators["history"]["multiple_claims"]`. -/
def w_multiple_claims : ℚ := 7/10

/-- Weight table `self.fraud_indicators["red_flags"]["water_damage_no_weather"]`. -/
def w_water_damage_no_weather : ℚ := 7/10

/-- Weight table `self.fraud_indicators["red_flags"]["theft_no_police_report"]`. -/
def w_theft_no_police_report : ℚ := 8/10

/-- `_check_recent_policy`: the policy start date parses and the number
of days from it to the current wall-clock date (`datetime.now()`) is
less than 30; a parse failure yields `False`. -/
def checkRecentPolicy (now : Int) (policy : PolicyData) : Bool :=
  match policy.start_date with
  | none => false
  | some s => now - s < 30

/-- `_check_weekend_claim`: the report date parses and falls on Saturday
or Sunday; a parse failure yields `False`. -/
def checkWeekendClaim (claim : ClaimData) : Bool :=
  match claim.report_date with
  | none => false
  | some d => 5 ≤ pyWeekday d

/-- `_check_vague_description`: fewer than 20 whitespace-separated words. -/
def checkVagueDescription (claim : ClaimData) : Bool :=
  pyWordCount claim.description < 20

/-- `_check_excessive_items`: strictly more than 15 claimed items. -/
def checkExcessiveItems (claim : ClaimData) : Bool :=
  15 < claim.items.length

/-- `_check_multiple_claims`: at least 3 recent claims. -/
def checkMultipleClaims (history : CustomerHistory) : Bool :=
  3 ≤ history.recent_claims

/-- `_check_water_damage_no_weather`: description mentions water
damage/flood but neither rain nor storm. -/
def checkWaterDamageNoWeather (claim : ClaimData) : Bool :=
  let d := pyLower claim.description
  (containsL "water damage".toList d || containsL "flood".toList d)
    && !(containsL "rain".toList d || containsL "storm".toList d)

/-- `_check_theft_no_police_report`: description mentions theft/stolen
and no police report accompanies the claim. -/
def checkTheftNoPoliceReport (claim : ClaimData) : Bool :=
  let d := pyLower claim.description
  (containsL "theft".toList d || containsL "stolen".toList d) && !claim.police_report

/-- `detect_fraud`: evaluate the seven rules in declaration order,
accumulating weights into `fraud_score` and labels into
`fraud_indicators_found`, then normalize by `min(score / 5.0, 1.0)` and
derive category and recommended action. -/
def detectFraud (now : Int) (claim : ClaimData) (policy : PolicyData)
    (history : CustomerHistory) : FraudResult :=
  let s0 : ℚ := 0
  let i0 : List (List Char) := []
  let s1 := if checkRecentPolicy now policy then s0 + w_recent_policy else s0
  let i1 := if checkRecentPolicy now policy then i0 ++ ["Recent policy creation".toList] else i0
  let s2 := if checkWeekendClaim claim then s1 + w_weekend_claim else s1
  let i2 := if checkWeekendClaim claim then i1 ++ ["Claim filed on weekend".toList] else i1
  let s3 := if checkVagueDescription claim then s2 + w_vague_description else s2
  let i3 := if checkVagueDescription claim then i2 ++ ["Vague claim description".toList] else i2
  let s4 := if checkExcessiveItems claim then s3 + w_excessive_items else s3
  let i4 := if checkExcessiveItems claim then i3 ++ ["Excessive number of items claimed".toList] else i3
  let s5 := if checkMultipleClaims history then s4 + w_multiple_claims else s4
  let i5 := if checkMultipleClaims history then i4 ++ ["Multiple recent claims".toList] else i4
  let s6 := if checkWaterDamageNoWeather claim then s5 + w_water_damage_no_weather else s5
  let i6 := if checkWaterDamageNoWeather claim then i5 ++ ["Water damage claim without weather event".toList] else i5
  let s7 := if checkTheftNoPoliceReport claim then s6 + w_theft_no_police_report else s6
  let i7 := if checkTheftNoPoliceReport claim then i6 ++ ["Theft claim without police report".toList] else i6
  let normalizedScore := min (s7 / 5) 1
  let riskCategory : List Char :=
    if 7/10 < normalizedScore then "High".toList
    else if 3/10 < normalizedScore then "Medium".toList
    else "Low".toList
  let recommendedAction : List Char :=
    if riskCategory = "High".toList then "Escalate for investigation".toList
    else if riskCategory = "Medium".toList then "Request additional documentation".toList
    else "Process claim normally".toList
  { fraud_score := normalizedScore
    risk_category := riskCategory
    indicators_found := i7
    recommended_action := recommendedAction }

/-- The raw (pre-normalization) fraud score: the sum of the weights of
the triggered rules. -/
def rawFraudScore (now : Int) (claim : ClaimData) (policy : PolicyData)
    (history : CustomerHistory) : ℚ :=
  (if checkRecentPolicy now policy then w_recent_policy else 0)
  + (if checkWeekendClaim claim then w_weekend_claim else 0)
  + (if checkVagueDescription claim then w_vague_description else 0)
  + (if checkExcessiveItems claim then w_excessive_items else 0)
  + (if checkMultipleClaims history then w_multiple_claims else 0)
  + (if checkWaterDamageNoWeather claim then w_water_damage_no_weather else 0)
  + (if checkTheftNoPoliceReport claim then w_theft_no_police_report else 0)

/-- Rewriting a conditional accumulation step as adding a conditional
contribution. -/
theorem iteAddShift (b : Prop) [Decidable b] (s w : ℚ) :
    (if b then s + w else s) = s + (if b then w else 0) := by
  split <;> simp

/-- Membership in a conditionally extended indicator list. -/
theorem memIteAppend {α} (b : Prop) [Decidable b] (l : List α) (x a : α) :
    (a ∈ if b then l ++ [x] else l) ↔ a ∈ l ∨ (b ∧ a = x) := by
  split <;> simp_all [List.mem_append]

/-- The fraud score computed by `detect_fraud` is the normalization of
the raw accumulated score. -/
theorem detectFraud_score_eq (now : Int) (claim : ClaimData) (policy : PolicyData)
    (history : CustomerHistory) :
    (detectFraud now claim policy history).fraud_score
      = min (rawFraudScore now claim policy history / 5) 1 := by
  simp only [detectFraud, rawFraudScore, iteAddShift, zero_add]

/-- The raw accumulated fraud score is nonnegative. -/
theorem rawFraudScore_nonneg (now : Int) (claim : ClaimData) (policy : PolicyData)
    (history : CustomerHistory) :
    0 ≤ rawFraudScore now claim policy history := by
  unfold rawFraudScore
  refine add_nonneg (add_nonneg (add_nonneg (add_nonneg (add_nonneg (add_nonneg ?_ ?_) ?_) ?_) ?_) ?_) ?_ <;>
    split <;>
    norm_num [w_recent_policy, w_weekend_claim, w_vague_description, w_excessive_items,
      w_multiple_claims, w_water_damage_no_weather, w_theft_no_police_report]

/-- The risk category computed by `detect_fraud` as a function of the
normalized score. -/
theorem detectFraud_category_eq (now : Int) (claim : ClaimData) (policy : PolicyData)
    (history : CustomerHistory) :
    (detectFraud now claim policy history).risk_category
      = (if 7/10 < (detectFraud now claim policy history).fraud_score then "High".toList
         else if 3/10 < (detectFraud now claim policy history).fraud_score then "Medium".toList
         else "Low".toList) := by
  rfl

/-- C2: `detect_fraud` returns `fraud_score = min(raw_score / 5.0, 1.0)`,
which lies in `[0, 1]` for all inputs, and the risk category is `High`
exactly when that score exceeds 0.7, `Medium` exactly when it exceeds
0.3 but not 0.7, and `Low` otherwise. -/
theorem C2_detectFraud_normalization_and_category (now : Int) (claim : ClaimData)
    (policy : PolicyData) (history : CustomerHistory) :
    (detectFraud now claim policy history).fraud_score
        = min (rawFraudScore now claim policy history / 5) 1
    ∧ 0 ≤ (detectFraud now claim policy history).fraud_score
    ∧ (detectFraud now claim policy history).fraud_score ≤ 1
    ∧ ((detectFraud now claim policy history).risk_category = "High".toList
        ↔ 7/10 < (detectFraud now claim policy history).fraud_score)
    ∧ ((detectFraud now claim policy history).risk_category = "Medium".toList
        ↔ 3/10 < (detectFraud now claim policy history).fraud_score
          ∧ (detectFraud now claim policy history).fraud_score ≤ 7/10)
    ∧ ((detectFraud now claim policy history).risk_category = "Low".toList
        ↔ (detectFraud now claim policy history).fraud_score ≤ 3/10) := by
  have hs := detectFraud_score_eq now claim policy history
  have hcat := detectFraud_category_eq now claim policy history
  have h0 : 0 ≤ (detectFraud now claim policy history).fraud_score := by
    rw [hs]
    exact le_min (div_nonneg (rawFraudScore_nonneg _ _ _ _) (by norm_num)) (by norm_num)
  have h1 : (detectFraud now claim policy history).fraud_score ≤ 1 := by
    rw [hs]; exact min_le_right _ _
  have dMH : ("Medium".toList : List Char) ≠ "High".toList := by decide
  have dLH : ("Low".toList : List Char) ≠ "High".toList := by decide
  have dHM : ("High".toList : List Char) ≠ "Medium".toList := by decide
  have dLM : ("Low".toList : List Char) ≠ "Medium".toList := by decide
  have dHL : ("High".toList : List Char) ≠ "Low".toList := by decide
  have dML : ("Medium".toList : List Char) ≠ "Low".toList := by decide
  refine ⟨hs, h0, h1, ?_, ?_, ?_⟩
  · rw [hcat]; split_ifs with hA hB
    · simp [hA]
    · simp [dMH, hA]
    · simp [dLH, hA]
  · rw [hcat]; split_ifs with hA hB
    · simp [dHM, hA]
    · simp [hB, le_of_not_lt hA]
    · simp [dLM, hB]
  · rw [hcat]; split_ifs with hA hB
    · simp [dHL]; linarith
    · simp [dML]; linarith
    · simp [le_of_not_lt hB]

/-! ## Claims Processor (`ClaimsProcessor`, claims.py) -/

/-- Claim status determination in `process_claim` (lines 61-66): start
from `Approved`, switch to `Under Review` when the score exceeds 0.5,
and otherwise — `elif` — to `Rejected` when it exceeds 0.7. -/
def determineClaimStatus (fraudScore : ℚ) : List Char :=
  if 1/2 < fraudScore then "Under Review".toList
  else if 7/10 < fraudScore then "Rejected".toList
  else "Approved".toList

/-- `_get_item_value`: keyword-based item value estimate. -/
def getItemValue (item : List Char) : ℚ :=
  let il := pyLower item
  if containsL "tv".toList il || containsL "television".toList il then 500
  else if containsL "computer".toList il || containsL "laptop".toList il then 1000
  else if containsL "phone".toList il || containsL "smartphone".toList il then 800
  else if containsL "jewelry".toList il then 2000
  else if containsL "furniture".toList il then 1500
  else if containsL "appliance".toList il then 1200
  else 500

/-- `_calculate_claim_amount`: items value plus base, capped by the
coverage amount, less the deductible, floored at zero. -/
def calculateClaimAmount (claim : ClaimData) (policy : PolicyData) : ℚ :=
  let baseAmount : ℚ := 1000
  let itemsValue := (claim.items.map getItemValue).sum
  let maxClaim := min (itemsValue + baseAmount) policy.coverage_amount
  max 0 (maxClaim - policy.deductible)

/-- `_get_next_steps`: fixed next-step lists keyed by claim status. -/
def getNextSteps (claimStatus : List Char) : List (List Char) :=
  if claimStatus = "Approved".toList then
    ["Claim has been approved".toList,
     "Payment will be processed within 5-7 business days".toList,
     "You will receive an email confirmation once payment is sent".toList,
     "Contact customer support if you have any questions".toList]
  else if claimStatus = "Under Review".toList then
    ["Claim requires additional review".toList,
     "A claims adjuster will contact you within 48 hours".toList,
     "Please have any supporting documentation ready".toList,
     "You may be asked to provide additional information".toList]
  else
    ["Claim has been rejected".toList,
     "Please review the rejection reasons provided".toList,
     "You may appeal this decision within 30 days".toList,
     "Contact customer support for assistance with the appeal process".toList]

/-- Keywords selecting item lines in `_extract_items_from_analysis`. -/
def itemLineKeywords : List (List Char) :=
  ["item".toList, "object".toList, "damaged".toList, "broken".toList, "stolen".toList]

/-- Fallback keywords selecting item sentences in
`_extract_items_from_analysis`. -/
def itemSentenceKeywords : List (List Char) :=
  ["see".toList, "visible".toList, "appears".toList, "showing".toList, "contains".toList]

/-- `_extract_items_from_analysis`: collect stripped non-empty lines
mentioning an item keyword; if none, fall back to sentences mentioning a
sighting keyword; return at most the first 10. -/
def extractItemsFromAnalysis (analysisText : List Char) : List (List Char) :=
  let items :=
    (splitOnPred (fun c => c = '\n') analysisText).foldl
      (fun acc line =>
        let line := stripL line
        if line.isEmpty then acc
        else if itemLineKeywords.any (fun w => containsL w (pyLower line)) then acc ++ [line]
        else acc)
      []
  let items :=
    if items.isEmpty then
      (splitOnPred (fun c => c = '.' || c = '!' || c = '?') analysisText).foldl
        (fun acc s =>
          let s := stripL s
          if itemSentenceKeywords.any (fun w => containsL w (pyLower s)) then acc ++ [s]
          else acc)
        []
    else items
  items.take 10

/-- Keywords selecting important sentences in `_summarize_image_analysis`. -/
def summaryKeywords : List (List Char) :=
  ["damage".toList, "item".toList, "object".toList, "identify".toList,
   "detect".toList, "risk".toList]

/-- Join a list of character lists with a separator (Python `sep.join`). -/
def joinSepL (sep : List Char) : List (List Char) → List Char
  | [] => []
  | [x] => x
  | x :: xs => x ++ sep ++ joinSepL sep xs

/-- `_summarize_image_analysis`: keep up to 5 keyword-bearing sentences,
falling back to the first 3 sentences, joined with ". " and a final ".". -/
def summarizeImageAnalysis (analysisText : List Char) : List Char :=
  let sentences :=
    ((splitOnPred (fun c => c = '.' || c = '!' || c = '?') analysisText).map stripL).filter
      (fun s => !s.isEmpty)
  let important := sentences.filter
    (fun s => summaryKeywords.any (fun w => containsL w (pyLower s)))
  let important := if 5 < important.length then important.take 5 else important
  let important := if important.isEmpty && !sentences.isEmpty then sentences.take 3 else important
  joinSepL ". ".toList important ++ ".".toList

/-- The claim data dictionary assembled by `process_claim`: the report
date is the current date, the items come from the image analysis, and
the police-report flag is a substring test on the description. -/
def buildClaimData (claimDescription : List Char) (nowDay : Int)
    (rawAnalysis : List Char) : ClaimData :=
  { description := claimDescription
    report_date := some nowDay
    items := extractItemsFromAnalysis rawAnalysis
    police_report := containsL "police report".toList (pyLower claimDescription) }

/-- `_get_policy_data`: the fixed policy record (start date 2025-01-01,
coverage 250000, deductible 1000). -/
def getPolicyData (_policyNumber : List Char) : PolicyData :=
  { start_date := some (daysFromCivil 2025 1 1)
    coverage_amount := 250000
    deductible := 1000 }

/-- `_get_customer_history`: the fixed history record (1 recent claim). -/
def getCustomerHistory (_email : List Char) : CustomerHistory :=
  { recent_claims := 1 }

/-- The default fraud result returned by `_detect_fraud` when the fraud
tool round trip raises. -/
def defaultFraudResult : FraudResult :=
  { fraud_score := 1/10
    risk_category := "Low".toList
    indicators_found := []
    recommended_action := "Process claim normally".toList }

/-- Claim assessment record built by `process_claim`. -/
structure ClaimAssessment where
  claim_number : List Char
  policy_number : List Char
  status : List Char
  fraud_score : ℚ
  fraud_indicators : List (List Char)
  claim_amount : ℚ
  items_claimed : List (List Char)
  next_steps : List (List Char)
deriving Repr, DecidableEq

/-- Result dictionary returned by `process_claim`.  Wall-clock execution
time is a real-time measurement and is not modelled. -/
structure ProcessResult where
  success : Bool
  claim_assessment : Option ClaimAssessment
  formatted_assessment : Option (List Char)
  error : Option (List Char)
deriving Repr, DecidableEq

/-- Environment of the orchestrator: outcomes of its fallible external
collaborators (vision service, fraud-tool round trip, record store) and
the ambient wall clock and string-hash value it reads. -/
structure OrchEnv where
  analyzeImage : Except (List Char) (List Char)
  fraudToolFailure : Option (List Char)
  createClaimFailure : Option (List Char)
  nowDay : Int
  nowDateStr : List Char
  hashValue : Int
deriving Repr

/-- The `hash(...) % 10000:04d` suffix of a generated claim number. -/
def format04 (h : Int) : List Char :=
  let m := (h % 10000).toNat
  let ds := Nat.toDigits 10 m
  List.replicate (4 - ds.length) '0' ++ ds

/-- Decimal rendering of a rational for interpolation into display
text; the exact Python float formatting is a presentation concern and is
abstracted by this deterministic rendering. -/
def formatMoney (q : ℚ) : List Char :=
  (toString q).toList

/-- `_format_claim_assessment`: the markdown report interpolating the
assessment and the image-analysis summary. -/
def formatClaimAssessment (a : ClaimAssessment) (imageAnalysis : List Char) : List Char :=
  let fraudIndicators :=
    if a.fraud_indicators.isEmpty then "None detected".toList
    else joinSepL "\n".toList (a.fraud_indicators.map (fun i => "- ".toList ++ i))
  let nextSteps := joinSepL "\n".toList (a.next_steps.map (fun s => "- ".toList ++ s))
  "\n## Claim Assessment Results\n\n### Claim Information\n- **Claim Number**: ".toList
    ++ a.claim_number
    ++ "\n- **Policy Number**: ".toList ++ a.policy_number
    ++ "\n- **Status**: ".toList ++ a.status
    ++ "\n\n### Assessment Details\n- **Estimated Payout**: $".toList
    ++ formatMoney a.claim_amount
    ++ "\n- **Fraud Detection Score**: ".toList ++ formatMoney a.fraud_score
    ++ "\n\n### Potential Fraud Indicators\n".toList ++ fraudIndicators
    ++ "\n\n### Next Steps\n".toList ++ nextSteps
    ++ "\n\n### Image Analysis Summary\n".toList ++ summarizeImageAnalysis imageAnalysis
    ++ "\n        ".toList

/-- The body of `process_claim`'s `try` block: image analysis, policy
and history lookup, claim-data assembly, fraud detection (whose own
failures collapse to `defaultFraudResult` inside `_detect_fraud`),
status, amount, claim number, persistence (store failures are swallowed
by the inner handler), and formatting. -/
def processBody (env : OrchEnv) (_imagePath policyNumber claimDescription : List Char) :
    Except (List Char) (ClaimAssessment × List Char) :=
  match env.analyzeImage with
  | .error e => .error e
  | .ok rawAnalysis =>
    let policyData := getPolicyData policyNumber
    let history := getCustomerHistory "john.smith@example.com".toList
    let claimData := buildClaimData claimDescription env.nowDay rawAnalysis
    let fraudResult :=
      match env.fraudToolFailure with
      | some _ => defaultFraudResult
      | none => detectFraud env.nowDay claimData policyData history
    let claimStatus := determineClaimStatus fraudResult.fraud_score
    let claimAmount := calculateClaimAmount claimData policyData
    let claimNumber :=
      "CLM-".toList ++ env.nowDateStr ++ "-".toList ++ format04 env.hashValue
    let assessment : ClaimAssessment :=
      { claim_number := claimNumber
        policy_number := policyNumber
        status := claimStatus
        fraud_score := fraudResult.fraud_score
        fraud_indicators := fraudResult.indicators_found
        claim_amount := claimAmount
        items_claimed := claimData.items
        next_steps := getNextSteps claimStatus }
    let _storeOutcome := env.createClaimFailure
    let formatted := formatClaimAssessment assessment rawAnalysis
    .ok (assessment, formatted)

/-- `process_claim`: the `try` body with the enclosing `except` handler,
which converts any escaped exception into a `success=False` result
carrying the error text. -/
def processClaim (env : OrchEnv) (imagePath policyNumber claimDescription : List Char) :
    ProcessResult :=
  match processBody env imagePath policyNumber claimDescription with
  | .ok (assessment, formatted) =>
    { success := true
      claim_assessment := some assessment
      formatted_assessment := some formatted
      error := none }
  | .error e =>
    { success := false
      claim_assessment := none
      formatted_assessment := none
      error := some e }

/-- Rewriting a conditional indicator append as concatenation with a
conditional singleton. -/
theorem iteAppendSingleton {α} (b : Prop) [Decidable b] (l : List α) (x : α) :
    (if b then l ++ [x] else l) = l ++ (if b then [x] else []) := by
  split <;> simp

/-- Membership in a conditional singleton list. -/
theorem memIteSingleton {α} (b : Prop) [Decidable b] (x a : α) :
    (a ∈ if b then [x] else []) ↔ b ∧ a = x := by
  split <;> simp_all

/-- The indicator list produced by `detect_fraud` is the concatenation
of the conditional rule labels in rule order. -/
theorem detectFraud_indicators_eq (now : Int) (claim : ClaimData) (policy : PolicyData)
    (history : CustomerHistory) :
    (detectFraud now claim policy history).indicators_found
      = (if checkRecentPolicy now policy then ["Recent policy creation".toList] else [])
        ++ (if checkWeekendClaim claim then ["Claim filed on weekend".toList] else [])
        ++ (if checkVagueDescription claim then ["Vague claim description".toList] else [])
        ++ (if checkExcessiveItems claim then ["Excessive number of items claimed".toList] else [])
        ++ (if checkMultipleClaims history then ["Multiple recent claims".toList] else [])
        ++ (if checkWaterDamageNoWeather claim then ["Water damage claim without weather event".toList] else [])
        ++ (if checkTheftNoPoliceReport claim then ["Theft claim without police report".toList] else []) := by
  simp only [detectFraud, iteAppendSingleton, List.nil_append]

/-- The excessive-items label appears among the indicators exactly when
the excessive-items rule triggers. -/
theorem excessiveIndicatorIff (now : Int) (claim : ClaimData) (policy : PolicyData)
    (history : CustomerHistory) :
    ("Excessive number of items claimed".toList
        ∈ (detectFraud now claim policy history).indicators_found)
      ↔ checkExcessiveItems claim = true := by
  rw [detectFraud_indicators_eq]
  have d1 : ("Excessive number of items claimed".toList : List Char)
      ≠ "Recent policy creation".toList := by decide
  have d2 : ("Excessive number of items claimed".toList : List Char)
      ≠ "Claim filed on weekend".toList := by decide
  have d3 : ("Excessive number of items claimed".toList : List Char)
      ≠ "Vague claim description".toList := by decide
  have d5 : ("Excessive number of items claimed".toList : List Char)
      ≠ "Multiple recent claims".toList := by decide
  have d6 : ("Excessive number of items claimed".toList : List Char)
      ≠ "Water damage claim without weather event".toList := by decide
  have d7 : ("Excessive number of items claimed".toList : List Char)
      ≠ "Theft claim without police report".toList := by decide
  simp [List.mem_append, memIteSingleton, d1, d2, d3, d5, d6, d7]

/-- C1: in `process_claim` the status is `Approved` for scores up to
0.5 and `Under Review` for scores above 0.5; the `Rejected` branch is
an unreachable `elif` — at fraud score 0.8 (a score above 0.7) the code
yields `Under Review`, and no fraud score at all yields `Rejected`. -/
theorem C1_claim_status_rejected_unreachable :
    determineClaimStatus (8/10) = "Under Review".toList
    ∧ (∀ s : ℚ, determineClaimStatus s = "Under Review".toList
        ∨ determineClaimStatus s = "Approved".toList)
    ∧ (∀ s : ℚ, 1/2 < s → determineClaimStatus s = "Under Review".toList)
    ∧ (∀ s : ℚ, s ≤ 1/2 → determineClaimStatus s = "Approved".toList) := by
  refine ⟨?_, ?_, ?_, ?_⟩
  · unfold determineClaimStatus
    rw [if_pos (by norm_num)]
  · intro s
    unfold determineClaimStatus
    split_ifs with h1 h2
    · left; rfl
    · exact absurd (lt_trans (by norm_num) h2) h1
    · right; rfl
  · intro s hs
    unfold determineClaimStatus
    rw [if_pos hs]
  · intro s hs
    unfold determineClaimStatus
    rw [if_neg (not_lt.mpr hs), if_neg (not_lt.mpr (le_trans hs (by norm_num)))]

/-- C1 witness: the conditional parts instantiated at concrete scores
0.8, 0.6 and 0.4. -/
theorem C1_claim_status_rejected_unreachable_witness :
    ((1 : ℚ)/2 < 6/10 ∧ determineClaimStatus (6/10) = "Under Review".toList)
    ∧ ((4 : ℚ)/10 ≤ 1/2 ∧ determineClaimStatus (4/10) = "Approved".toList) :=
  ⟨⟨by norm_num, C1_claim_status_rejected_unreachable.2.2.1 (6/10) (by norm_num)⟩,
   ⟨by norm_num, C1_claim_status_rejected_unreachable.2.2.2 (4/10) (by norm_num)⟩⟩

/-- C3: `process_claim` is total over every collaborator outcome; when
the `try` body fails the handler returns a structured result with
`success = False` and the error text, and otherwise the result reports
success with no error. -/
theorem C3_processClaim_never_raises (env : OrchEnv)
    (imagePath policyNumber claimDescription : List Char) :
    (∀ e, processBody env imagePath policyNumber claimDescription = .error e →
        processClaim env imagePath policyNumber claimDescription =
          { success := false
            claim_assessment := none
            formatted_assessment := none
            error := some e })
    ∧ ((processClaim env imagePath policyNumber claimDescription).success = true
          ∧ (processClaim env imagePath policyNumber claimDescription).error = none
       ∨ (processClaim env imagePath policyNumber claimDescription).success = false
          ∧ (processClaim env imagePath policyNumber claimDescription).error.isSome = true) := by
  constructor
  · intro e he
    unfold processClaim
    rw [he]
  · cases hb : processBody env imagePath policyNumber claimDescription with
    | ok v =>
      obtain ⟨a, f⟩ := v
      left
      simp [processClaim, hb]
    | error e =>
      right
      simp [processClaim, hb]

/-- A concrete collaborator environment in which the vision service
raises. -/
def c3Env : OrchEnv :=
  { analyzeImage := .error "File not found".toList
    fraudToolFailure := none
    createClaimFailure := none
    nowDay := daysFromCivil 2025 6 1
    nowDateStr := "20250601".toList
    hashValue := 1234 }

/-- C3 witness: with a failing vision service, `process_claim` returns
the structured failure result instead of raising. -/
theorem C3_processClaim_never_raises_witness :
    processBody c3Env "claim.jpg".toList "POL-123".toList "water damage in kitchen".toList
        = .error "File not found".toList
    ∧ processClaim c3Env "claim.jpg".toList "POL-123".toList "water damage in kitchen".toList
        = { success := false
            claim_assessment := none
            formatted_assessment := none
            error := some "File not found".toList } :=
  ⟨rfl,
   (C3_processClaim_never_raises c3Env "claim.jpg".toList "POL-123".toList
      "water damage in kitchen".toList).1 _ rfl⟩

/-- C10: the item list extracted from an image analysis has at most 10
entries, so the excessive-items rule (which needs more than 15) never
triggers on claim data assembled by `process_claim`, and its label never
appears among the fraud indicators of such a claim. -/
theorem C10_extracted_items_never_excessive (rawAnalysis claimDescription : List Char)
    (nowDay now2 : Int) (policy : PolicyData) (history : CustomerHistory) :
    (extractItemsFromAnalysis rawAnalysis).length ≤ 10
    ∧ checkExcessiveItems (buildClaimData claimDescription nowDay rawAnalysis) = false
    ∧ (detectFraud now2 (buildClaimData claimDescription nowDay rawAnalysis) policy
        history).indicators_found.contains "Excessive number of items claimed".toList
        = false := by
  have hlen : (extractItemsFromAnalysis rawAnalysis).length ≤ 10 := by
    unfold extractItemsFromAnalysis
    exact List.length_take_le _ _
  have hexc : checkExcessiveItems (buildClaimData claimDescription nowDay rawAnalysis)
      = false := by
    unfold checkExcessiveItems buildClaimData
    simp only [decide_eq_false_iff_not, not_lt]
    exact le_trans hlen (by norm_num)
  refine ⟨hlen, hexc, ?_⟩
  have hnot : ¬ ("Excessive number of items claimed".toList
      ∈ (detectFraud now2 (buildClaimData claimDescription nowDay rawAnalysis) policy
          history).indicators_found) := by
    rw [excessiveIndicatorIff]
    simp [hexc]
  cases hc : (detectFraud now2 (buildClaimData claimDescription nowDay rawAnalysis) policy
      history).indicators_found.contains "Excessive number of items claimed".toList with
  | false => rfl
  | true =>
    exact absurd (by simpa [List.elem_iff] using hc) hnot

/-- C4: `_check_recent_policy` measures the policy age against the
current wall-clock date, not against the claim's report date.  With the
policy started 2025-01-01 and the claim reported 2025-01-10 (9 days
later, within 30), the rule does not trigger when the wall clock reads
2025-04-11, yet it does trigger for a wall clock equal to the report
date — so the outcome is a function of the wall clock rather than of
the report-date field. -/
theorem C4_recentPolicy_reads_wall_clock :
    checkRecentPolicy (daysFromCivil 2025 4 11)
        { start_date := some (daysFromCivil 2025 1 1)
          coverage_amount := 250000
          deductible := 1000 } = false
    ∧ daysFromCivil 2025 1 10 - daysFromCivil 2025 1 1 < 30
    ∧ checkRecentPolicy (daysFromCivil 2025 1 10)
        { start_date := some (daysFromCivil 2025 1 1)
          coverage_amount := 250000
          deductible := 1000 } = true := by
  refine ⟨by decide, by decide, by decide⟩

/-! ## Risk Scoring Engine (`RiskModelTool`, risk_model.py) -/

/-- `self.property_risk_factors.get(category, 1.0)`: per-category
weight with default 1.0. -/
def propertyRiskFactor (category : List Char) : ℚ :=
  if category = "electronics".toList then 12/10
  else if category = "jewelry".toList then 15/10
  else if category = "art".toList then 13/10
  else if category = "furniture".toList then 11/10
  else if category = "appliances".toList then 115/100
  else if category = "sports_equipment".toList then 105/100
  else if category = "musical_instruments".toList then 125/100
  else 1

/-- `self.location_risk_factors`: recognized location tags and their
multiplicative weights; `none` for unrecognized tags. -/
def locationRiskFactor (factor : List Char) : Option ℚ :=
  if factor = "flood_zone".toList then some (14/10)
  else if factor = "high_crime".toList then some (13/10)
  else if factor = "wildfire_prone".toList then some (135/100)
  else if factor = "hurricane_prone".toList then some (145/100)
  else if factor = "earthquake_prone".toList then some (15/10)
  else if factor = "urban".toList then some (11/10)
  else if factor = "suburban".toList then some 1
  else if factor = "rural".toList then some (95/100)
  else none

/-- Result of `assess_risk`. -/
structure RiskAssessment where
  risk_score : ℚ
  risk_category : List Char
  recommended_coverage : ℚ
  annual_premium : ℚ
  monthly_premium : ℚ
  item_risk_contribution : ℚ
  location_risk_contribution : ℚ
deriving Repr, DecidableEq

/-- `assess_risk`: accumulate weighted item risk and item count,
normalize by the count only when it is positive, multiply the
recognized location factors, derive category, coverage and premiums. -/
def assessRisk (items : List (List Char × Nat)) (locationFactors : List (List Char)) :
    RiskAssessment :=
  let baseRisk : ℚ := 1
  let itemRisk : ℚ :=
    (items.map (fun p => propertyRiskFactor (pyLower p.1) * (p.2 : ℚ))).sum
  let totalItems : Nat := (items.map Prod.snd).sum
  let itemRisk := if 0 < totalItems then itemRisk / (totalItems : ℚ) else itemRisk
  let locationRisk : ℚ :=
    locationFactors.foldl
      (fun acc f =>
        match locationRiskFactor (pyLower f) with
        | some w => acc * w
        | none => acc)
      1
  let overallRisk := baseRisk * itemRisk * locationRisk
  let riskCategory : List Char :=
    if overallRisk < 1 then "Low".toList
    else if 3/2 < overallRisk then "High".toList
    else "Medium".toList
  let baseCoverage : ℚ := 50000
  let perItemCoverage : ℚ := 1000
  let totalCoverage := baseCoverage + (totalItems : ℚ) * perItemCoverage
  let adjustedCoverage := totalCoverage * overallRisk
  let annualPremium := adjustedCoverage * (2/100)
  let monthlyPremium := annualPremium / 12
  { risk_score := overallRisk
    risk_category := riskCategory
    recommended_coverage := adjustedCoverage
    annual_premium := annualPremium
    monthly_premium := monthlyPremium
    item_risk_contribution := itemRisk
    location_risk_contribution := locationRisk }

/-- C6: when the total item count is zero (in particular for an empty
inventory) the normalizing division is skipped and the item-risk
contribution returned by `assess_risk` is 0. -/
theorem C6_assessRisk_zero_items (items : List (List Char × Nat))
    (locationFactors : List (List Char))
    (h : (items.map Prod.snd).sum = 0) :
    (assessRisk items locationFactors).item_risk_contribution = 0 := by
  have hz : ∀ p ∈ items, (p : List Char × Nat).2 = 0 := by
    intro p hp
    exact List.sum_eq_zero_iff.mp h _ (List.mem_map_of_mem _ hp)
  have hsum : (items.map (fun p => propertyRiskFactor (pyLower p.1) * (p.2 : ℚ))).sum = 0 := by
    apply List.sum_eq_zero
    intro x hx
    obtain ⟨p, hp, rfl⟩ := List.mem_map.mp hx
    rw [hz p hp]
    simp
  simp only [assessRisk, h, lt_irrefl, if_false, hsum]

/-- C6 witness: a zero-count inventory entry against a flood-zone
location yields item-risk contribution 0. -/
theorem C6_assessRisk_zero_items_witness :
    (([("jewelry".toList, 0)].map Prod.snd).sum = 0)
    ∧ (assessRisk [("jewelry".toList, 0)] ["flood_zone".toList]).item_risk_contribution = 0 :=
  ⟨by decide, C6_assessRisk_zero_items [("jewelry".toList, 0)] ["flood_zone".toList] (by decide)⟩

/-! ## Sentiment Analyzer (`SentimentAnalyzerTool`, sentiment_analyzer.py) -/

/-- Convert a list of string literals to character lists. -/
def strs (l : List String) : List (List Char) :=
  l.map String.toList

/-- `self.positive_words`. -/
def positiveWords : List (List Char) :=
  strs ["good", "great", "excellent", "amazing", "wonderful", "fantastic",
    "helpful", "satisfied", "happy", "pleased", "love", "like", "best",
    "thank", "thanks", "appreciate", "outstanding", "perfect", "awesome",
    "easy", "clear", "fast", "quick", "responsive", "friendly", "efficient"]

/-- `self.negative_words`. -/
def negativeWords : List (List Char) :=
  strs ["bad", "poor", "terrible", "awful", "horrible", "disappointing",
    "frustrated", "unhappy", "dissatisfied", "angry", "upset", "hate",
    "dislike", "worst", "slow", "difficult", "confusing", "complicated",
    "expensive", "overpriced", "rude", "unprofessional", "inefficient",
    "problem", "issue", "complaint", "error", "mistake", "delay", "fail"]

/-- `self.neutral_words`. -/
def neutralWords : List (List Char) :=
  strs ["okay", "ok", "fine", "average", "neutral", "fair", "decent",
    "acceptable", "moderate", "standard", "normal", "regular", "usual"]

/-- `self.emotion_words`, in declaration order. -/
def emotionWords : List (List Char × List (List Char)) :=
  [("anger".toList, strs ["angry", "furious", "outraged", "mad", "irritated", "annoyed"]),
   ("frustration".toList, strs ["frustrated", "stuck", "difficult", "confusing", "complicated"]),
   ("satisfaction".toList, strs ["satisfied", "pleased", "content", "happy", "glad"]),
   ("confusion".toList, strs ["confused", "unclear", "unsure", "uncertain", "puzzled"]),
   ("urgency".toList, strs ["urgent", "immediately", "asap", "emergency", "quickly", "soon"])]

/-- `self.intensity_modifiers`, in declaration order. -/
def intensityModifiers : List (List Char × ℚ) :=
  [("very".toList, 3/2), ("extremely".toList, 2), ("really".toList, 3/2),
   ("somewhat".toList, 1/2), ("slightly".toList, 3/10), ("a bit".toList, 3/10),
   ("absolutely".toList, 2), ("completely".toList, 9/5), ("totally".toList, 9/5)]

/-- Match `rf"{modifier}\s+(\w+)"` at the start of `t`: the literal
modifier, then at least one whitespace character (taken greedily), then
the captured maximal word-character run; returns the capture and the
rest of the text after the match. -/
def matchModAt (modifier t : List Char) : Option (List Char × List Char) :=
  if startsWithL modifier t then
    let after := t.drop modifier.length
    let ws := after.takeWhile pyIsSpace
    if ws.isEmpty then none
    else
      let afterWs := after.dropWhile pyIsSpace
      let word := afterWs.takeWhile pyIsWordChar
      if word.isEmpty then none
      else some (word, afterWs.drop word.length)
  else none

/-- Scanning loop of `re.findall(rf"{modifier}\s+(\w+)", text)`:
leftmost non-overlapping matches, resuming after each match. -/
def findAllModAux (modifier : List Char) : Nat → List Char → List (List Char)
  | 0, _ => []
  | _ + 1, [] =>
    match matchModAt modifier [] with
    | some (w, _) => [w]
    | none => []
  | fuel + 1, c :: cs =>
    match matchModAt modifier (c :: cs) with
    | some (w, rest) => w :: findAllModAux modifier fuel rest
    | none => findAllModAux modifier fuel cs

/-- `re.findall(rf"{modifier}\s+(\w+)", text)`: the captured words. -/
def findAllMod (modifier text : List Char) : List (List Char) :=
  findAllModAux modifier (text.length + 1) text

/-- The per-occurrence score adjustment denominator:
`1 / total_sentiment_words if total_sentiment_words > 0 else 0.1`. -/
def adjustUnit (totalSentimentWords : Nat) : ℚ :=
  if 0 < totalSentimentWords then 1 / (totalSentimentWords : ℚ) else 1/10

/-- The sentiment score of `analyze_sentiment` before the final clamp:
the base lexicon score followed by the intensity-modifier adjustments in
modifier declaration order. -/
def preClampSentimentScore (text : List Char) : ℚ :=
  let words := runsBy pyIsWordChar text
  let positiveCount := (words.filter (fun w => positiveWords.contains w)).length
  let negativeCount := (words.filter (fun w => negativeWords.contains w)).length
  let neutralCount := (words.filter (fun w => neutralWords.contains w)).length
  let totalSentimentWords := positiveCount + negativeCount + neutralCount
  let baseScore : ℚ :=
    if totalSentimentWords = 0 then 0
    else ((positiveCount : ℚ) - (negativeCount : ℚ)) / (totalSentimentWords : ℚ)
  intensityModifiers.foldl
    (fun score m =>
      if containsL m.1 text then
        (findAllMod m.1 text).foldl
          (fun s w =>
            if positiveWords.contains w then s + (m.2 - 1) * adjustUnit totalSentimentWords
            else if negativeWords.contains w then s - (m.2 - 1) * adjustUnit totalSentimentWords
            else s)
          score
      else score)
    baseScore

/-- Result of `analyze_sentiment`. -/
structure SentimentResult where
  sentiment : List Char
  sentiment_score : ℚ
  positive_count : Nat
  negative_count : Nat
  neutral_count : Nat
  emotions : List (List Char × Nat)
  key_phrases : List (List Char)
deriving Repr, DecidableEq

/-- `_extract_key_phrases`: sentences containing a sentiment-lexicon
word and having 3 to 15 tokens, capped at 3. -/
def extractKeyPhrases (text : List Char) : List (List Char) :=
  let phrases :=
    (splitOnPred (fun c => c = '.' || c = '!' || c = '?') text).foldl
      (fun acc sentence =>
        let sentence := stripL sentence
        if sentence.isEmpty then acc
        else
          let words := runsBy pyIsWordChar (pyLower sentence)
          let hasSentiment := words.any
            (fun w => positiveWords.contains w || negativeWords.contains w)
          if hasSentiment && (3 ≤ words.length && words.length ≤ 15) then acc ++ [sentence]
          else acc)
      []
  phrases.take 3

/-- Stable insertion (descending by count): the inserted element goes
before the first entry whose count does not exceed it, so entries with
equal counts keep their original relative order, as Python's stable
`sorted(..., reverse=True)` does. -/
def insertDescByCount (a : List Char × Nat) :
    List (List Char × Nat) → List (List Char × Nat)
  | [] => [a]
  | b :: bs => if a.2 < b.2 then b :: insertDescByCount a bs else a :: b :: bs

/-- Stable sort by count, descending (Python
`sorted(..., key=lambda x: x[1], reverse=True)`). -/
def sortDescByCount (l : List (List Char × Nat)) : List (List Char × Nat) :=
  l.foldr insertDescByCount []

/-- `analyze_sentiment`: lower-case, tokenize on word boundaries, count
lexicon words, compute the base score, apply intensity modifiers, clamp
to [-1, 1], categorize, detect top-2 emotions (stable sort by count
descending), and extract key phrases. -/
def analyzeSentiment (text : List Char) : SentimentResult :=
  let t := pyLower text
  let words := runsBy pyIsWordChar t
  let positiveCount := (words.filter (fun w => positiveWords.contains w)).length
  let negativeCount := (words.filter (fun w => negativeWords.contains w)).length
  let neutralCount := (words.filter (fun w => neutralWords.contains w)).length
  let sentimentScore := max (-1) (min 1 (preClampSentimentScore t))
  let sentiment : List Char :=
    if 3/10 < sentimentScore then "positive".toList
    else if sentimentScore < -(3/10) then "negative".toList
    else "neutral".toList
  let emotions :=
    emotionWords.foldl
      (fun acc p =>
        let emotionCount := (words.filter (fun w => p.2.contains w)).length
        if 0 < emotionCount then acc ++ [(p.1, emotionCount)] else acc)
      []
  let topEmotions := (sortDescByCount emotions).take 2
  { sentiment := sentiment
    sentiment_score := sentimentScore
    positive_count := positiveCount
    negative_count := negativeCount
    neutral_count := neutralCount
    emotions := topEmotions
    key_phrases := extractKeyPhrases t }

/-- C7: the sentiment score is clamped to [-1, 1] for every input, and
the empty string yields the neutral category with score 0. -/
theorem C7_sentiment_clamped_and_empty_neutral :
    (∀ text : List Char,
      -1 ≤ (analyzeSentiment text).sentiment_score
        ∧ (analyzeSentiment text).sentiment_score ≤ 1)
    ∧ (analyzeSentiment []).sentiment = "neutral".toList
    ∧ (analyzeSentiment []).sentiment_score = 0 := by
  have hscore : (analyzeSentiment []).sentiment_score = 0 := by decide
  have hrepr : (analyzeSentiment []).sentiment
      = (if 3/10 < (analyzeSentiment []).sentiment_score then "positive".toList
         else if (analyzeSentiment []).sentiment_score < -(3/10) then "negative".toList
         else "neutral".toList) := rfl
  refine ⟨?_, ?_, hscore⟩
  · intro text
    have h : (analyzeSentiment text).sentiment_score
        = max (-1) (min 1 (preClampSentimentScore (pyLower text))) := rfl
    rw [h]
    exact ⟨le_max_left _ _, max_le (by norm_num) (min_le_left _ _)⟩
  · rw [hrepr, hscore]
    norm_num

/-! ## Document Analyzer (`DocAnalyzerTool`, doc_analyzer.py) -/

/-- Match a `\s+`-separated word sequence at the start of `t`: each
literal word, and between consecutive words at least one whitespace
character (the greedy whitespace run; since the following literal
starts with a non-whitespace character, backtracking the run cannot
produce further matches). -/
def matchWordSeqAt : List (List Char) → List Char → Bool
  | [], _ => true
  | [w], t => startsWithL w t
  | w :: ws, t =>
    startsWithL w t &&
      (let after := (t.drop w.length)
       !(after.takeWhile pyIsSpace).isEmpty
         && matchWordSeqAt ws (after.dropWhile pyIsSpace))

/-- `re.search` of a `\s+`-separated word sequence: a match starting at
any position of the text. -/
def searchWordSeq (ws : List (List Char)) : List Char → Bool
  | [] => matchWordSeqAt ws []
  | c :: cs => matchWordSeqAt ws (c :: cs) || searchWordSeq ws cs

/-- `self.document_patterns`, in declaration order; each regular
expression `word1\s+word2` is represented by its word sequence. -/
def documentPatterns : List (List Char × List (List (List Char))) :=
  [("policy".toList,
    [strs ["policy", "number"], strs ["coverage", "amount"], strs ["premium"],
     strs ["effective", "date"], strs ["expiration", "date"]]),
   ("claim".toList,
    [strs ["claim", "number"], strs ["incident", "date"],
     strs ["damage", "description"], strs ["estimated", "loss"]]),
   ("invoice".toList,
    [strs ["invoice", "number"], strs ["amount", "due"], strs ["payment", "date"],
     strs ["service", "description"]]),
   ("receipt".toList,
    [strs ["receipt", "number"], strs ["purchase", "date"],
     strs ["item", "description"], strs ["amount", "paid"]])]

/-- Per-type pattern-match counts of `_identify_document_type`
(`re.IGNORECASE` is modelled by searching the lower-cased text with the
lower-case patterns). -/
def typeScores (text : List Char) : List (List Char × Nat) :=
  let t := pyLower text
  documentPatterns.map (fun p => (p.1, (p.2.filter (fun ws => searchWordSeq ws t)).length))

/-- The selection shared by `_identify_document_type` and
`_categorize_query`: take the maximum score; return the default when it
is zero, else the head of the list of entries achieving it. -/
def firstMaxByCode (default : List Char) (scores : List (List Char × Nat)) : List Char :=
  let maxScore := (scores.map Prod.snd).foldl Nat.max 0
  if maxScore = 0 then default
  else
    match scores.filter (fun p => p.2 = maxScore) with
    | [] => default
    | p :: _ => p.1

/-- The same selection in the specification's words: the entry with the
highest count wins, ties are broken in favour of the first declared
entry, and an all-zero score table yields the default. -/
def firstMaxBySpec (default : List Char) (scores : List (List Char × Nat)) : List Char :=
  let maxScore := (scores.map Prod.snd).foldl Nat.max 0
  if maxScore = 0 then default
  else
    match scores.find? (fun p => p.2 = maxScore) with
    | some p => p.1
    | none => default

/-- The head of a filtered list is the first element satisfying the
predicate. -/
theorem filterHeadEqFind {α} (p : α → Bool) (l : List α) :
    (l.filter p).head? = l.find? p := by
  induction l with
  | nil => rfl
  | cons a t ih =>
    by_cases h : p a = true
    · simp [List.filter_cons, List.find?_cons, h]
    · simp only [List.filter_cons, List.find?_cons, h]
      simp only [h, Bool.false_eq_true, if_false, ih]

/-- Code selection and specification selection agree. -/
theorem firstMaxByCode_eq_spec (d : List Char) (scores : List (List Char × Nat)) :
    firstMaxByCode d scores = firstMaxBySpec d scores := by
  unfold firstMaxByCode firstMaxBySpec
  dsimp only
  have hf := filterHeadEqFind (fun p : List Char × Nat => p.2 = (scores.map Prod.snd).foldl Nat.max 0) scores
  split_ifs with h
  · rfl
  · rw [← hf]
    cases hfl : scores.filter
        (fun p : List Char × Nat => p.2 = (scores.map Prod.snd).foldl Nat.max 0) with
    | nil => simp
    | cons q rest => simp

/-- `_identify_document_type`: score each document type, return
`unknown` for an empty table or an all-zero table, else the first type
achieving the maximal score. -/
def identifyDocumentType (text : List Char) : List Char :=
  let ts := typeScores text
  if ts.isEmpty then "unknown".toList
  else firstMaxByCode "unknown".toList ts

/-- C8: the returned document type is the first of
(policy, claim, invoice, receipt) — the pattern-library declaration
order — achieving the highest case-insensitive pattern-match count, and
it is `unknown` exactly in the all-zero case, in particular on empty
text. -/
theorem C8_document_type_first_max :
    (∀ text : List Char,
      identifyDocumentType text = firstMaxBySpec "unknown".toList (typeScores text)
      ∧ (typeScores text).map Prod.fst
          = ["policy".toList, "claim".toList, "invoice".toList, "receipt".toList])
    ∧ identifyDocumentType [] = "unknown".toList := by
  refine ⟨?_, by decide⟩
  intro text
  constructor
  · unfold identifyDocumentType
    rw [if_neg (by simp [typeScores, documentPatterns])]
    exact firstMaxByCode_eq_spec _ _
  · rfl

/-- Characters of the key group `[A-Za-z\s]` of the key-value pattern. -/
def isKvKeyChar (c : Char) : Bool :=
  ('A' ≤ c && c ≤ 'Z') || ('a' ≤ c && c ≤ 'z') || pyIsSpace c

/-- Characters of the separator class `[:.-]` of the key-value pattern. -/
def isKvSep (c : Char) : Bool :=
  c = ':' || c = '.' || c = '-'

/-- Characters of the value group `[A-Za-z0-9\s,.$-]` of the key-value
pattern. -/
def isKvValChar (c : Char) : Bool :=
  ('A' ≤ c && c ≤ 'Z') || ('a' ≤ c && c ≤ 'z') || ('0' ≤ c && c ≤ '9')
    || pyIsSpace c || c = ',' || c = '.' || c = '$' || c = '-'

/-- Backtracking over the length of a greedy quantifier: try `k`,
`k - 1`, …, `0` in order and keep the first success, as the regex
engine does after taking a greedy run. -/
def tryDown {β} (f : Nat → Option β) : Nat → Option β
  | 0 => f 0
  | k + 1 => (f (k + 1)).orElse (fun _ => tryDown f k)

/-- Match `([A-Za-z\s]+)[:.-]\s*([A-Za-z0-9\s,.$-]+)(?:\n|$)` at the
start of `t` with the engine's greedy-then-backtrack order: the
longest key run first, then the separator, then the longest whitespace
run down to the empty one, then the longest value run, each accepted
only if the tail (a newline, consumed, or the end of input) follows;
returns the two captured groups and the rest of the text. -/
def matchKvAt (t : List Char) : Option (List Char × List Char × List Char) :=
  tryDown
    (fun k1 =>
      if k1 = 0 then none
      else
        let key := t.take k1
        match t.drop k1 with
        | [] => none
        | sep :: rest2 =>
          if isKvSep sep then
            tryDown
              (fun k3 =>
                let rest3 := rest2.drop k3
                tryDown
                  (fun k4 =>
                    if k4 = 0 then none
                    else
                      let value := rest3.take k4
                      match rest3.drop k4 with
                      | [] => some (key, value, [])
                      | c :: rest5 =>
                        if c = '\n' then some (key, value, rest5) else none)
                  (rest3.takeWhile isKvValChar).length)
              (rest2.takeWhile pyIsSpace).length
          else none)
    (t.takeWhile isKvKeyChar).length

/-- Scanning loop of `re.findall` for the key-value pattern: leftmost
non-overlapping matches, resuming after each match. -/
def findAllKvAux : Nat → List Char → List (List Char × List Char)
  | 0, _ => []
  | _ + 1, [] => []
  | fuel + 1, c :: cs =>
    match matchKvAt (c :: cs) with
    | some (k, v, rest) => (k, v) :: findAllKvAux fuel rest
    | none => findAllKvAux fuel cs

/-- `re.findall(r"([A-Za-z\s]+)[:.-]\s*([A-Za-z0-9\s,.$-]+)(?:\n|$)", text)`. -/
def findAllKv (text : List Char) : List (List Char × List Char) :=
  findAllKvAux (text.length + 1) text

/-- Python dict assignment `d[k] = v`: replace the value at the first
occurrence of the key, else append the new entry. -/
def dictInsert : List (List Char × List Char) → List Char → List Char →
    List (List Char × List Char)
  | [], k, v => [(k, v)]
  | p :: rest, k, v =>
    if p.1 = k then (k, v) :: rest else p :: dictInsert rest k v

/-- Python dict lookup: the value at the first occurrence of the key. -/
def lookupKV : List (List Char × List Char) → List Char → Option (List Char)
  | [], _ => none
  | p :: rest, k => if p.1 = k then some p.2 else lookupKV rest k

/-- `_extract_key_values`: over the pattern matches in scan order,
normalize the key (strip, lower), strip the value, skip pairs where
either is empty, and assign into the dict. -/
def extractKeyValues (text : List Char) : List (List Char × List Char) :=
  (findAllKv text).foldl
    (fun kv p =>
      let key := pyLower (stripL p.1)
      let value := stripL p.2
      if !key.isEmpty && !value.isEmpty then dictInsert kv key value else kv)
    []

/-- The matches of the key-value pattern after normalization and the
emptiness filter, in scan order. -/
def normKvMatches (text : List Char) : List (List Char × List Char) :=
  (findAllKv text).filterMap
    (fun p =>
      let key := pyLower (stripL p.1)
      let value := stripL p.2
      if !key.isEmpty && !value.isEmpty then some (key, value) else none)

/-- Dict lookup after a dict assignment: the assigned key now maps to
the new value and every other key is unaffected. -/
theorem lookupDictInsert (d : List (List Char × List Char)) (k0 v0 k : List Char) :
    lookupKV (dictInsert d k0 v0) k = if k = k0 then some v0 else lookupKV d k := by
  induction d with
  | nil =>
    by_cases h : k = k0
    · subst h; simp [lookupKV, dictInsert]
    · have h' : ¬(k0 = k) := fun he => h he.symm
      simp [lookupKV, dictInsert, h, h']
  | cons p rest ih =>
    by_cases hp : p.1 = k0
    · by_cases h : k = k0
      · subst h; simp [lookupKV, dictInsert, hp]
      · have h' : ¬(k0 = k) := fun he => h he.symm
        have hpk : ¬(p.1 = k) := by rw [hp]; exact h'
        simp [lookupKV, dictInsert, hp, h, h', hpk]
    · by_cases hk : p.1 = k
      · have h : ¬(k = k0) := by
          intro he; exact hp (hk.trans he)
        simp [lookupKV, dictInsert, hp, hk, h]
      · simp [lookupKV, dictInsert, hp, hk, ih]

/-- `find?` over a concatenation prefers the left part. -/
theorem findAppend {α} (p : α → Bool) (l1 l2 : List α) :
    (l1 ++ l2).find? p = (l1.find? p).orElse (fun _ => l2.find? p) := by
  induction l1 with
  | nil => simp
  | cons a t ih =>
    by_cases h : p a = true
    · simp [List.find?_cons, h, Option.orElse]
    · simp [List.find?_cons, h, ih]

/-- Looking up a key after folding dict assignments over a pair list:
the last assignment to the key wins, and keys never assigned fall back
to the initial dict. -/
theorem lookupFoldInsert (ms : List (List Char × List Char))
    (init : List (List Char × List Char)) (k : List Char) :
    lookupKV (ms.foldl (fun kv p => dictInsert kv p.1 p.2) init) k
      = match ms.reverse.find? (fun p => p.1 = k) with
        | some p => some p.2
        | none => lookupKV init k := by
  induction ms generalizing init with
  | nil => rfl
  | cons a t ih =>
    simp only [List.foldl_cons, List.reverse_cons]
    rw [ih (dictInsert init a.1 a.2), findAppend]
    cases hf : t.reverse.find? (fun p => p.1 = k) with
    | some p => rfl
    | none =>
      show lookupKV (dictInsert init a.1 a.2) k
          = match List.find? (fun p => decide (p.1 = k)) [a] with
            | some p => some p.2
            | none => lookupKV init k
      rw [lookupDictInsert]
      by_cases h : k = a.1
      · simp [List.find?_cons, h]
      · have h2 : ¬(a.1 = k) := fun he => h he.symm
        simp [List.find?_cons, h, h2]

/-- The assignment fold of `_extract_key_values` equals the dict
assignment fold over the normalized, emptiness-filtered matches. -/
theorem extractKeyValues_eq_fold (text : List Char) :
    extractKeyValues text
      = (normKvMatches text).foldl (fun kv p => dictInsert kv p.1 p.2) [] := by
  unfold extractKeyValues normKvMatches
  generalize findAllKv text = ms
  suffices h : ∀ init : List (List Char × List Char),
      ms.foldl
        (fun kv p =>
          let key := pyLower (stripL p.1)
          let value := stripL p.2
          if !key.isEmpty && !value.isEmpty then dictInsert kv key value else kv)
        init
      = (ms.filterMap
          (fun p =>
            let key := pyLower (stripL p.1)
            let value := stripL p.2
            if !key.isEmpty && !value.isEmpty then some (key, value) else none)).foldl
          (fun kv p => dictInsert kv p.1 p.2) init by
    exact h []
  induction ms with
  | nil => intro init; rfl
  | cons a t ih =>
    intro init
    simp only [List.foldl_cons, List.filterMap_cons]
    cases h : (!(pyLower (stripL a.1)).isEmpty && !(stripL a.2).isEmpty) with
    | true => simp only [h, if_true]; exact ih _
    | false => simp only [h, Bool.false_eq_true, if_false]; exact ih _

/-- C5 (amended): the free key-value mapping assigns to each normalized
key the LAST value seen for it in scan order (each later `label: value`
line overwrites the earlier one), not the first. -/
theorem C5_extractKeyValues_last_value_wins (text k : List Char) :
    lookupKV (extractKeyValues text) k
      = ((normKvMatches text).reverse.find? (fun p => p.1 = k)).map Prod.snd := by
  rw [extractKeyValues_eq_fold, lookupFoldInsert]
  cases hf : (normKvMatches text).reverse.find? (fun p => p.1 = k) <;> simp [lookupKV]

/-- A document text in which the same normalized key appears on two
label/value lines with different values. -/
def c5Text : List Char := "A: x\nA: y\n".toList

/-- C5 counterexample: on `c5Text` the key `a` appears with first value
`x` and last value `y`; the mapping returned by the extraction holds
`y`, not the first-seen `x`. -/
theorem C5_first_value_counterexample :
    findAllKv c5Text = [("A".toList, "x".toList), ("A".toList, "y\n".toList)]
    ∧ lookupKV (extractKeyValues c5Text) "a".toList = some "y".toList
    ∧ (lookupKV (extractKeyValues c5Text) "a".toList = some "x".toList) = False :=
  ⟨by decide, by decide, eq_false (by decide)⟩

/-! ## Customer Assistant intent categorization (`_categorize_query`, customer.py) -/

/-- The category→keyword table of `_categorize_query`, in declaration
order. -/
def intentCategories : List (List Char × List (List Char)) :=
  [("policy_info".toList,
    strs ["policy", "coverage", "covered", "insured", "premium", "deductible"]),
   ("claim_status".toList,
    strs ["claim", "status", "payment", "reimbursement", "approved", "denied", "process"]),
   ("billing".toList,
    strs ["bill", "payment", "pay", "invoice", "charge", "fee", "cost", "price", "expensive"]),
   ("technical_support".toList,
    strs ["website", "app", "login", "password", "reset", "account", "access", "error"]),
   ("coverage_question".toList,
    strs ["cover", "covered", "include", "protect", "damage", "loss", "theft", "accident"]),
   ("complaint".toList,
    strs ["unhappy", "dissatisfied", "disappointed", "problem", "issue", "wrong",
      "mistake", "error", "complaint"])]

/-- Per-category scores of `_categorize_query`: the number of the
category's keywords occurring (as substrings) in the lower-cased query. -/
def categoryScores (query : List Char) : List (List Char × Nat) :=
  let ql := pyLower query
  intentCategories.map (fun p => (p.1, (p.2.filter (fun kw => containsL kw ql)).length))

/-- `_categorize_query`: the first category achieving the maximal
keyword score, or `general_inquiry` when every score is zero. -/
def categorizeQuery (query : List Char) : List Char :=
  firstMaxByCode "general_inquiry".toList (categoryScores query)

/-- The query of the intent-categorization scenario. -/
def c9Query : List Char := "What is my deductible and how do I pay my bill?".toList

/-- C9 counterexample: on the scenario query the scores are not tied —
`billing` scores 2 (`bill` and `pay`) while `policy_info` scores only 1
(`deductible`) — so the categorizer returns `billing`, not the
first-declared `policy_info`. -/
theorem C9_policy_info_counterexample :
    categoryScores c9Query
      = [("policy_info".toList, 1), ("claim_status".toList, 0), ("billing".toList, 2),
         ("technical_support".toList, 0), ("coverage_question".toList, 0),
         ("complaint".toList, 0)]
    ∧ categorizeQuery c9Query = "billing".toList
    ∧ (categorizeQuery c9Query = "policy_info".toList) = False :=
  ⟨by decide, by decide, eq_false (by decide)⟩

/-- C9 (amended): intent categorization scores each category by the
count of its keywords present in the lower-cased text, the
highest-scoring category wins with ties broken by table declaration
order, all-zero yields `general_inquiry` — and for the input
"What is my deductible and how do I pay my bill?" the result is
`billing`, which outscores `policy_info` two keywords to one. -/
theorem C9_categorize_first_max_and_scenario :
    (∀ query : List Char,
      categorizeQuery query = firstMaxBySpec "general_inquiry".toList (categoryScores query)
      ∧ (categoryScores query).map Prod.fst
          = ["policy_info".toList, "claim_status".toList, "billing".toList,
             "technical_support".toList, "coverage_question".toList, "complaint".toList])
    ∧ categorizeQuery c9Query = "billing".toList
    ∧ categorizeQuery [] = "general_inquiry".toList := by
  refine ⟨?_, by decide, by decide⟩
  intro query
  exact ⟨firstMaxByCode_eq_spec _ _, rfl⟩
